import Mathlib

/-!
Verification development for the Task2 customer-feedback system
(`src/Task2/user.py`, the submission app writing to MongoDB, and
`src/Task2/admin.py`, the dashboard reading `feedback_data.json`).

The Python code is shallowly embedded: external effects (the Groq
provider, Streamlit secrets, the environment, MongoDB, the data file)
are passed in as explicit parameters, and the observable actions of a
submission (provider calls, warnings, the store write, the final
messages) are recorded as an event trace.
-/

/-! ## Decimal digit strings

`user.py` builds the record id with
`datetime.now().strftime("%Y%m%d%H%M%S%f")`: the concatenation of the
zero-padded decimal renderings of the timestamp fields (4-digit year,
2-digit month/day/hour/minute/second, 6-digit microseconds).  We model
decimal strings as lists of digits.  `padNum w n` is the `w`-character
zero-padded decimal rendering of `n` (most significant digit first),
exactly what each `strftime` field directive produces for in-range `n`. -/
def padNum : Nat → Nat → List Nat
  | 0, _ => []
  | w + 1, n => n / 10 ^ w :: padNum w (n % 10 ^ w)

/-- Read a digit list back as a number (left fold, accumulator form). -/
def ofPadAux : List Nat → Nat → Nat
  | [], a => a
  | d :: l, a => ofPadAux l (a * 10 + d)

/-- Lexicographic `≤` on digit lists; on equal-length lists this is the
order in which the corresponding strings compare. -/
def lexLe : List Nat → List Nat → Bool
  | [], _ => true
  | _ :: _, [] => false
  | a :: as, b :: bs => if a < b then true else if a = b then lexLe as bs else false

/-! ## Timestamps

`datetime.now()` supplies a wall-clock instant; `user.py` derives the
record id from its fields via `strftime` and the `timestamp` field via
`isoformat()` (which `admin.py` parses back with `pd.to_datetime`, a
lossless, order-preserving round trip, so we keep the structured
value). -/
structure DateTime where
  year : Nat
  month : Nat
  day : Nat
  hour : Nat
  minute : Nat
  second : Nat
  usec : Nat
deriving DecidableEq, Repr

/-- Field ranges a real `datetime.now()` value satisfies. -/
def DateTime.Valid (t : DateTime) : Prop :=
  t.year < 10000 ∧ 1 ≤ t.month ∧ t.month ≤ 12 ∧ 1 ≤ t.day ∧ t.day ≤ 31 ∧
  t.hour < 24 ∧ t.minute < 60 ∧ t.second < 60 ∧ t.usec < 1000000

instance (t : DateTime) : Decidable t.Valid := by
  unfold DateTime.Valid
  infer_instance

/-- A single number encoding the instant; for valid timestamps,
chronological order is exactly `key` order. -/
def DateTime.key (t : DateTime) : Nat :=
  (((((t.year * 10 ^ 2 + t.month) * 10 ^ 2 + t.day) * 10 ^ 2 + t.hour) * 10 ^ 2
    + t.minute) * 10 ^ 2 + t.second) * 10 ^ 6 + t.usec

/-- `datetime.now().strftime("%Y%m%d%H%M%S%f")` from `user.py` line 162,
as the list of decimal digits of the 20-character id string. -/
def mkId (t : DateTime) : List Nat :=
  padNum 4 t.year ++ padNum 2 t.month ++ padNum 2 t.day ++ padNum 2 t.hour ++
    padNum 2 t.minute ++ padNum 2 t.second ++ padNum 6 t.usec

/-! ## Enrichment Client (`user.py` lines 59-130)

Each `generate_*` function issues one provider call inside `try`; any
exception is caught, a `st.warning` is emitted, and a fixed fallback
string is returned; on success the completion text is `strip`ped.  The
provider interaction is passed in as `Option String` (`some text` =
the completion's message content, `none` = any raised exception). -/
def aiResponseFallback : String :=
  "Thank you for your feedback! We appreciate you taking the time to share your experience with us."

def aiSummaryFallback : String := "Customer feedback received"

def aiActionsFallback : String :=
  "• Review and address customer feedback\n• Follow up with customer if needed"

/-- Python `str.strip()` (no arguments): drop leading and trailing
whitespace.  (`String.trim` is extensionally the same but does not
reduce in the kernel, so we give a structurally recursive model.) -/
def pyStrip (s : String) : String :=
  String.mk (((s.data.dropWhile Char.isWhitespace).reverse.dropWhile Char.isWhitespace).reverse)

/-- Shared `try`/`except` shape of the three generators: result text
plus whether the failure warning was emitted. -/
def deriveText (outcome : Option String) (fallback : String) : String × Bool :=
  match outcome with
  | some text => (pyStrip text, false)
  | none => (fallback, true)

def generate_ai_response (outcome : Option String) : String × Bool :=
  deriveText outcome aiResponseFallback

def generate_summary (outcome : Option String) : String × Bool :=
  deriveText outcome aiSummaryFallback

def generate_actions (outcome : Option String) : String × Bool :=
  deriveText outcome aiActionsFallback

/-! ## The persisted record (`user.py` lines 161-169)

The dict literal `feedback_entry`: id from
`strftime("%Y%m%d%H%M%S%f")` (modeled as its digit list), timestamp
from `isoformat()` (modeled as the structured instant, which the
dashboard parses back losslessly), then the raw input and the three
derived texts. -/
structure FeedbackEntry where
  id : List Nat
  timestamp : DateTime
  rating : Int
  review : String
  ai_response : String
  ai_summary : String
  ai_actions : String
deriving DecidableEq, Repr

inductive DerivationKind where
  | response
  | summary
  | actions
deriving DecidableEq, Repr

/-- Observable actions of one pass through the submission form handler. -/
inductive Event where
  | validationError (msg : String)
  | providerCall (d : DerivationKind)
  | warn (d : DerivationKind)
  | save (e : FeedbackEntry)
  | storageException
  | successMessage
deriving DecidableEq, Repr

/-- The `feedback_entry` dict (lines 161-169), as a function of the
instant and the three provider interactions. -/
def feedbackEntryOf (t : DateTime) (rating : Int) (review : String)
    (oResp oSum oAct : Option String) : FeedbackEntry :=
  { id := mkId t, timestamp := t, rating := rating, review := review,
    ai_response := (generate_ai_response oResp).1,
    ai_summary := (generate_summary oSum).1,
    ai_actions := (generate_actions oAct).1 }

/-- The provider-facing actions of the three sequential derivation
calls (lines 156-158): each issues its completion request and, on
failure, its warning. -/
def callEvents (oResp oSum oAct : Option String) : List Event :=
  ([Event.providerCall DerivationKind.response]
      ++ (if (generate_ai_response oResp).2 then [Event.warn DerivationKind.response] else []))
    ++ ([Event.providerCall DerivationKind.summary]
      ++ (if (generate_summary oSum).2 then [Event.warn DerivationKind.summary] else []))
    ++ ([Event.providerCall DerivationKind.actions]
      ++ (if (generate_actions oAct).2 then [Event.warn DerivationKind.actions] else []))

/-- `user.py` `main`, `if submitted:` block (lines 150-178): reject a
blank review, otherwise run the three derivations, assemble
`feedback_entry`, and `save_data` it.  `t` is the `datetime.now()`
instant, `oResp`/`oSum`/`oAct` the three provider interactions, and
`storeUp` whether `insert_one` succeeds (`save_data` has no handler, so
a storage failure raises out of `main`).  Returns the event trace and
the persisted record, if any. -/
def submitFeedback (t : DateTime) (rating : Int) (review : String)
    (oResp oSum oAct : Option String) (storeUp : Bool) :
    List Event × Option FeedbackEntry :=
  if pyStrip review = "" then
    ([Event.validationError "Please write a review before submitting."], none)
  else if storeUp then
    (callEvents oResp oSum oAct
        ++ [Event.save (feedbackEntryOf t rating review oResp oSum oAct),
          Event.successMessage],
      some (feedbackEntryOf t rating review oResp oSum oAct))
  else
    (callEvents oResp oSum oAct ++ [Event.storageException], none)

/-! ## Storage

`user.py` `save_data` (lines 55-57) inserts into the MongoDB
`feedback` collection; `admin.py` `load_data` (lines 20-24) reads the
local file `feedback_data.json` and returns `[]` when the file does not
exist.  The two media are part of one system state. -/
structure SystemState where
  mongoStore : List FeedbackEntry
  dataFile : Option (List FeedbackEntry)
deriving DecidableEq, Repr

/-- `save_data(feedback_entry)`: `collection.insert_one(...)` appends
to the MongoDB collection. -/
def save_data (s : SystemState) (e : FeedbackEntry) : SystemState :=
  { s with mongoStore := s.mongoStore ++ [e] }

/-- `admin.py` `load_data()`: if `feedback_data.json` exists, parse it;
otherwise return the empty list. -/
def admin_load_data (s : SystemState) : List FeedbackEntry :=
  match s.dataFile with
  | some records => records
  | none => []

/-! ## Stable single-key sorting

`admin.py` sorts the filtered dataframe with
`DataFrame.sort_values(column, ascending=...)` — one key, no secondary
column.  We model it as a stable sort on that single key (rows that
compare equal keep their dataframe order; the essential point for the
claims is that no `id` tie-break is applied). -/
def insertLe {α : Type} (le : α → α → Bool) (a : α) : List α → List α
  | [] => [a]
  | b :: l => if le a b then a :: b :: l else b :: insertLe le a l

def sortBy {α : Type} (le : α → α → Bool) : List α → List α
  | [] => []
  | a :: l => insertLe le a (sortBy le l)

/-! ## Aggregation Engine (`admin.py` `main`, lines 50-97 and 161-172) -/

def ratingsOf (records : List FeedbackEntry) : List Int :=
  records.map FeedbackEntry.rating

/-- `df['rating'].mean()` over a non-empty frame: arithmetic mean. -/
def meanRating (ratings : List Int) : ℚ :=
  (ratings.sum : ℚ) / ratings.length

/-- The dashboard's mean as actually reachable: `main` returns early on
an empty frame (lines 52-54) before any metric is computed, so a mean
value exists only for a non-empty record set. -/
def meanRatingShown (records : List FeedbackEntry) : Option ℚ :=
  if records = [] then none else some (meanRating (ratingsOf records))

/-- Key metrics block (lines 52-76): early-out notice on an empty
frame, else count, mean, positive percentage, negative count. -/
inductive Dashboard where
  | noData
  | metrics (total : Nat) (avgRating : ℚ) (positivePct : ℚ) (negativeCount : Nat)
deriving DecidableEq, Repr

def dashboardMetrics (records : List FeedbackEntry) : Dashboard :=
  if records = [] then Dashboard.noData
  else
    Dashboard.metrics records.length (meanRating (ratingsOf records))
      ((((records.filter (fun r => 4 ≤ r.rating)).length : ℚ) / records.length) * 100)
      (records.filter (fun r => r.rating ≤ 2)).length

/-- `df['rating'].value_counts().sort_index()` (line 87): occurrence
counts of the rating values that occur, indexed ascending.  Ratings
that never occur produce no entry. -/
def ratingCounts (ratings : List Int) : List (Int × Nat) :=
  (sortBy (fun a b => decide (a ≤ b)) ratings.dedup).map (fun v => (v, ratings.count v))

inductive SortKey where
  | newest
  | oldest
  | highestRating
  | lowestRating
deriving DecidableEq, Repr

/-- The single-column comparison `sort_values` uses for each choice of
the `Sort by` selectbox (lines 165-172): timestamps compare
chronologically (pandas parsed them back from `isoformat`). -/
def sortLe (k : SortKey) (x y : FeedbackEntry) : Bool :=
  match k with
  | SortKey.newest => decide (y.timestamp.key ≤ x.timestamp.key)
  | SortKey.oldest => decide (x.timestamp.key ≤ y.timestamp.key)
  | SortKey.highestRating => decide (y.rating ≤ x.rating)
  | SortKey.lowestRating => decide (x.rating ≤ y.rating)

/-- Lines 161-172: `df[df['rating'].isin(filter_rating)]` then
`sort_values` on the one selected column. -/
def filterAndSort (records : List FeedbackEntry) (ratingsIncluded : List Int)
    (k : SortKey) : List FeedbackEntry :=
  sortBy (sortLe k) (records.filter (fun r => ratingsIncluded.contains r.rating))

/-- Modelled from the spec (§4.4): the comparison `filterAndSort` would
use if ties were broken by `id` ascending, for comparison with the
code's `sortLe`. -/
def specSortLe (k : SortKey) (x y : FeedbackEntry) : Bool :=
  match k with
  | SortKey.newest =>
      decide (y.timestamp.key < x.timestamp.key)
        || (decide (x.timestamp.key = y.timestamp.key) && lexLe x.id y.id)
  | SortKey.oldest =>
      decide (x.timestamp.key < y.timestamp.key)
        || (decide (x.timestamp.key = y.timestamp.key) && lexLe x.id y.id)
  | SortKey.highestRating =>
      decide (y.rating < x.rating) || (decide (x.rating = y.rating) && lexLe x.id y.id)
  | SortKey.lowestRating =>
      decide (x.rating < y.rating) || (decide (x.rating = y.rating) && lexLe x.id y.id)

/-- Modelled from the spec (§4.4 `filterAndSort`, "ties broken by `id`
ascending for determinism"): the specified projection, for comparison
with the code's `filterAndSort`. -/
def filterAndSortSpec (records : List FeedbackEntry) (ratingsIncluded : List Int)
    (k : SortKey) : List FeedbackEntry :=
  sortBy (specSortLe k) (records.filter (fun r => ratingsIncluded.contains r.rating))

/-! ## Credential resolution (`user.py` lines 18-28 and 38-48)

`st.secrets` lookups and `os.getenv` are passed in as `Option String`
(`none` = key absent / lookup raises; `some ""` = present but empty). -/
inductive Resolution where
  | halted
  | client (key : String)
deriving DecidableEq, Repr

/-- `get_groq_client`: `st.secrets["GROQ_API_KEY"]` (absence raises
`KeyError`/`FileNotFoundError`, caught and replaced by
`os.getenv("GROQ_API_KEY")`); a falsy result hits `st.error`+`st.stop`. -/
def get_groq_client (secrets env : Option String) : Resolution :=
  let api_key : Option String :=
    match secrets with
    | some v => some v
    | none => env
  match api_key with
  | none => Resolution.halted
  | some k => if k = "" then Resolution.halted else Resolution.client k

/-- `get_mongo_client`: `st.secrets.get("MONGODB_URI") or
os.getenv("MONGODB_URI")` (Python `or`: a falsy secret falls through to
the environment), whole lookup guarded by a bare `except` that also
falls back to the environment; a falsy result hits `st.error`+`st.stop`. -/
def get_mongo_client (secrets env : Option String) : Resolution :=
  let mongodb_uri : Option String :=
    match secrets with
    | some v => if v = "" then env else some v
    | none => env
  match mongodb_uri with
  | none => Resolution.halted
  | some u => if u = "" then Resolution.halted else Resolution.client u

/-- Each `generate_*` function begins with `client = get_groq_client()`:
when that halts (`st.stop`), the completion request is never issued.
`none` = halted before any provider call, `some` = the derivation's
result. -/
def generateWithCreds (secrets env : Option String) (outcome : Option String)
    (fallback : String) : Option (String × Bool) :=
  match get_groq_client secrets env with
  | Resolution.halted => none
  | Resolution.client _ => some (deriveText outcome fallback)

/-! ## Sample values used by witnesses and counterexamples -/

def tSample : DateTime := ⟨2025, 10, 12, 9, 30, 15, 123456⟩

def tSample2 : DateTime := ⟨2025, 10, 12, 9, 30, 15, 123457⟩

def eSample : FeedbackEntry :=
  { id := mkId tSample, timestamp := tSample, rating := 5, review := "Great service",
    ai_response := "r", ai_summary := "s", ai_actions := "a" }

def isSaveEvent : Event → Bool
  | Event.save _ => true
  | _ => false

def isValidationEvent : Event → Bool
  | Event.validationError _ => true
  | _ => false

def eA : FeedbackEntry :=
  { id := mkId tSample2, timestamp := tSample2, rating := 5, review := "A",
    ai_response := "r", ai_summary := "s", ai_actions := "a" }

def eB : FeedbackEntry :=
  { id := mkId tSample, timestamp := tSample, rating := 5, review := "B",
    ai_response := "r", ai_summary := "s", ai_actions := "a" }

def eR2 : FeedbackEntry := { eB with review := "C", rating := 2 }

def eR4 : FeedbackEntry := { eB with review := "D", rating := 4 }

def eR1 : FeedbackEntry := { eB with review := "E", rating := 1 }

/-! ## Properties -/

theorem padNum_length (w n : Nat) : (padNum w n).length = w := by
  induction w generalizing n with
  | zero => rfl
  | succ w ih => simp [padNum, ih]

theorem ofPadAux_padNum (w : Nat) : ∀ n a, n < 10 ^ w →
    ofPadAux (padNum w n) a = a * 10 ^ w + n := by
  induction w with
  | zero =>
      intro n a h
      simp [padNum, ofPadAux]
      omega
  | succ w ih =>
      intro n a h
      have hmod : n % 10 ^ w < 10 ^ w := Nat.mod_lt _ (Nat.pos_pow_of_pos w (by norm_num))
      have hdm := Nat.div_add_mod n (10 ^ w)
      simp only [padNum, ofPadAux]
      rw [ih _ _ hmod]
      have : 10 ^ (w + 1) = 10 ^ w * 10 := by ring
      rw [this]
      nlinarith [hdm]

theorem padNum_inj (w m n : Nat) (hm : m < 10 ^ w) (hn : n < 10 ^ w)
    (h : padNum w m = padNum w n) : m = n := by
  have h1 := ofPadAux_padNum w m 0 hm
  have h2 := ofPadAux_padNum w n 0 hn
  rw [h, h2] at h1
  omega

theorem padNum_append (a : Nat) : ∀ b x y, x < 10 ^ a → y < 10 ^ b →
    padNum (a + b) (x * 10 ^ b + y) = padNum a x ++ padNum b y := by
  induction a with
  | zero =>
      intro b x y hx _
      interval_cases x
      simp [padNum]
  | succ a ih =>
      intro b x y hx hy
      have hx' : x % 10 ^ a < 10 ^ a := Nat.mod_lt _ (Nat.pos_pow_of_pos a (by norm_num))
      have hdmx := Nat.div_add_mod x (10 ^ a)
      have hab : (a + 1) + b = (a + b) + 1 := by omega
      have hpow : 10 ^ ((a + b) + 1) = 10 ^ a * 10 ^ b * 10 := by ring
      have hpow2 : 10 ^ (a + b) = 10 ^ a * 10 ^ b := (pow_add 10 a b)
      have hyb : 0 < 10 ^ b := Nat.pos_pow_of_pos b (by norm_num)
      have hsplit : x * 10 ^ b + y
          = (10 ^ a * 10 ^ b) * (x / 10 ^ a) + (x % 10 ^ a * 10 ^ b + y) := by
        nlinarith [hdmx]
      have hsmallmul : (x % 10 ^ a + 1) * 10 ^ b ≤ 10 ^ a * 10 ^ b :=
        Nat.mul_le_mul_right _ hx'
      have hsmallexp : (x % 10 ^ a + 1) * 10 ^ b = x % 10 ^ a * 10 ^ b + 10 ^ b := by ring
      have hsmall : x % 10 ^ a * 10 ^ b + y < 10 ^ a * 10 ^ b := by omega
      have hkey : (x * 10 ^ b + y) / 10 ^ (a + b) = x / 10 ^ a := by
        rw [hpow2, hsplit, Nat.mul_add_div (by positivity), Nat.div_eq_of_lt hsmall]
        omega
      have hmodkey : (x * 10 ^ b + y) % 10 ^ (a + b) = x % 10 ^ a * 10 ^ b + y := by
        rw [hpow2, hsplit, Nat.mul_add_mod, Nat.mod_eq_of_lt hsmall]
      rw [hab]
      show (x * 10 ^ b + y) / 10 ^ (a + b) :: padNum (a + b) ((x * 10 ^ b + y) % 10 ^ (a + b))
        = (x / 10 ^ a :: padNum a (x % 10 ^ a)) ++ padNum b y
      rw [hkey, hmodkey, ih b (x % 10 ^ a) y hx' hy]
      rfl

theorem lexLe_refl (l : List Nat) : lexLe l l = true := by
  induction l with
  | nil => rfl
  | cons a l ih => simp [lexLe, ih]

theorem lexLe_padNum (w : Nat) : ∀ m n, m < 10 ^ w → n < 10 ^ w →
    (lexLe (padNum w m) (padNum w n) = true ↔ m ≤ n) := by
  induction w with
  | zero =>
      intro m n hm hn
      simp [padNum, lexLe]
      omega
  | succ w ih =>
      intro m n hm hn
      have hmd := Nat.div_add_mod m (10 ^ w)
      have hnd := Nat.div_add_mod n (10 ^ w)
      have hmm : m % 10 ^ w < 10 ^ w := Nat.mod_lt _ (Nat.pos_pow_of_pos w (by norm_num))
      have hnm : n % 10 ^ w < 10 ^ w := Nat.mod_lt _ (Nat.pos_pow_of_pos w (by norm_num))
      have hpow : 10 ^ (w + 1) = 10 ^ w * 10 := by ring
      simp only [padNum, lexLe]
      rcases Nat.lt_trichotomy (m / 10 ^ w) (n / 10 ^ w) with hlt | heq | hgt
      · simp only [if_pos hlt]
        constructor
        · intro _
          have hb1 : 10 ^ w * (m / 10 ^ w + 1) ≤ 10 ^ w * (n / 10 ^ w) :=
            Nat.mul_le_mul_left _ hlt
          have hb2 : 10 ^ w * (m / 10 ^ w + 1) = 10 ^ w * (m / 10 ^ w) + 10 ^ w := by ring
          omega
        · intro _; trivial
      · rw [heq] at hmd ⊢
        rw [if_neg (lt_irrefl _), if_pos rfl, ih _ _ hmm hnm]
        omega
      · have h1 : ¬ m / 10 ^ w < n / 10 ^ w := by omega
        have h2 : ¬ m / 10 ^ w = n / 10 ^ w := by omega
        simp only [if_neg h1, if_neg h2]
        constructor
        · intro h; cases h
        · intro hle
          exfalso
          have hb1 : 10 ^ w * (n / 10 ^ w + 1) ≤ 10 ^ w * (m / 10 ^ w) :=
            Nat.mul_le_mul_left _ hgt
          have hb2 : 10 ^ w * (n / 10 ^ w + 1) = 10 ^ w * (n / 10 ^ w) + 10 ^ w := by ring
          omega

/-- For a valid timestamp the id string is the 20-digit zero-padded
rendering of the composite key. -/
theorem mkId_eq_padNum_key (t : DateTime) (h : t.Valid) :
    mkId t = padNum 20 t.key := by
  obtain ⟨hy, hmo1, hmo, hd1, hd, hh, hmi, hs, hu⟩ := h
  have b4y : t.year < 10 ^ 4 := by norm_num; omega
  have b2mo : t.month < 10 ^ 2 := by norm_num; omega
  have b2d : t.day < 10 ^ 2 := by norm_num; omega
  have b2h : t.hour < 10 ^ 2 := by norm_num; omega
  have b2mi : t.minute < 10 ^ 2 := by norm_num; omega
  have b2s : t.second < 10 ^ 2 := by norm_num; omega
  have b6u : t.usec < 10 ^ 6 := by norm_num; omega
  have k5 : t.year * 10 ^ 2 + t.month < 10 ^ 6 := by norm_num; omega
  have k4 : (t.year * 10 ^ 2 + t.month) * 10 ^ 2 + t.day < 10 ^ 8 := by norm_num; omega
  have k3 : ((t.year * 10 ^ 2 + t.month) * 10 ^ 2 + t.day) * 10 ^ 2 + t.hour < 10 ^ 10 := by
    norm_num; omega
  have k2 : (((t.year * 10 ^ 2 + t.month) * 10 ^ 2 + t.day) * 10 ^ 2 + t.hour) * 10 ^ 2
      + t.minute < 10 ^ 12 := by norm_num; omega
  have k1 : ((((t.year * 10 ^ 2 + t.month) * 10 ^ 2 + t.day) * 10 ^ 2 + t.hour) * 10 ^ 2
      + t.minute) * 10 ^ 2 + t.second < 10 ^ 14 := by norm_num; omega
  have e1 := padNum_append 14 6 _ t.usec k1 b6u
  have e2 := padNum_append 12 2 _ t.second k2 b2s
  have e3 := padNum_append 10 2 _ t.minute k3 b2mi
  have e4 := padNum_append 8 2 _ t.hour k4 b2h
  have e5 := padNum_append 6 2 _ t.day k5 b2d
  have e6 := padNum_append 4 2 t.year t.month b4y b2mo
  show mkId t = padNum 20 t.key
  unfold mkId DateTime.key
  norm_num at e1 e2 e3 e4 e5 e6 ⊢
  rw [e1, e2, e3, e4, e5, e6]
  simp [List.append_assoc]

/-- Distinct instants give distinct id strings (valid timestamps). -/
theorem mkId_inj (t t' : DateTime) (h : t.Valid) (h' : t'.Valid)
    (hk : t.key ≠ t'.key) : mkId t ≠ mkId t' := by
  intro he
  apply hk
  rw [mkId_eq_padNum_key t h, mkId_eq_padNum_key t' h'] at he
  have hb : t.key < 10 ^ 20 := by
    obtain ⟨hy, _, hmo, _, hd, _, _, _, hu⟩ := h
    unfold DateTime.key
    norm_num
    omega
  have hb' : t'.key < 10 ^ 20 := by
    obtain ⟨hy, _, hmo, _, hd, _, _, _, hu⟩ := h'
    unfold DateTime.key
    norm_num
    omega
  exact padNum_inj 20 t.key t'.key hb hb' he

/-- Chronologically ordered instants give lexicographically ordered id
strings (valid timestamps). -/
theorem mkId_mono (t t' : DateTime) (h : t.Valid) (h' : t'.Valid)
    (hk : t.key ≤ t'.key) : lexLe (mkId t) (mkId t') = true := by
  rw [mkId_eq_padNum_key t h, mkId_eq_padNum_key t' h']
  have hb : t.key < 10 ^ 20 := by
    obtain ⟨hy, _, hmo, _, hd, _, _, _, hu⟩ := h
    unfold DateTime.key
    norm_num
    omega
  have hb' : t'.key < 10 ^ 20 := by
    obtain ⟨hy, _, hmo, _, hd, _, _, _, hu⟩ := h'
    unfold DateTime.key
    norm_num
    omega
  exact (lexLe_padNum 20 t.key t'.key hb hb').mpr hk

theorem insertLe_perm {α : Type} (le : α → α → Bool) (a : α) (l : List α) :
    (insertLe le a l).Perm (a :: l) := by
  induction l with
  | nil => exact List.Perm.refl _
  | cons b l ih =>
      by_cases h : le a b = true
      · simp [insertLe, h]
      · simp only [insertLe, h]
        rw [if_neg (by simp [h])]
        exact (ih.cons b).trans (List.Perm.swap a b l)

theorem sortBy_perm {α : Type} (le : α → α → Bool) (l : List α) :
    (sortBy le l).Perm l := by
  induction l with
  | nil => exact List.Perm.refl _
  | cons a l ih =>
      exact (insertLe_perm le a (sortBy le l)).trans (ih.cons a)

theorem mem_insertLe {α : Type} (le : α → α → Bool) (a x : α) (l : List α) :
    x ∈ insertLe le a l ↔ x = a ∨ x ∈ l := by
  rw [(insertLe_perm le a l).mem_iff]
  simp

theorem insertLe_pairwise {α : Type} (le : α → α → Bool)
    (htrans : ∀ x y z, le x y = true → le y z = true → le x z = true)
    (htot : ∀ x y, le x y = true ∨ le y x = true)
    (a : α) (l : List α) (h : l.Pairwise (fun x y => le x y = true)) :
    (insertLe le a l).Pairwise (fun x y => le x y = true) := by
  induction l with
  | nil => simp [insertLe]
  | cons b l ih =>
      rcases List.pairwise_cons.mp h with ⟨hb, hl⟩
      by_cases hab : le a b = true
      · simp only [insertLe, if_pos hab]
        refine List.pairwise_cons.mpr ⟨?_, h⟩
        intro x hx
        rcases List.mem_cons.mp hx with hx | hx
        · rw [hx]; exact hab
        · exact htrans a b x hab (hb x hx)
      · simp only [insertLe]
        rw [if_neg hab]
        refine List.pairwise_cons.mpr ⟨?_, ih hl⟩
        intro x hx
        rcases (mem_insertLe le a x l).mp hx with hx | hx
        · rw [hx]
          rcases htot a b with h1 | h1
          · exact absurd h1 hab
          · exact h1
        · exact hb x hx

theorem sortBy_pairwise {α : Type} (le : α → α → Bool)
    (htrans : ∀ x y z, le x y = true → le y z = true → le x z = true)
    (htot : ∀ x y, le x y = true ∨ le y x = true)
    (l : List α) : (sortBy le l).Pairwise (fun x y => le x y = true) := by
  induction l with
  | nil => simp [sortBy]
  | cons a l ih => exact insertLe_pairwise le htrans htot a (sortBy le l) ih

/-- Claim C2, counterexample: a rating outside [1,5] (here 0) with a
non-blank review is not rejected — the handler runs the derivations and
persists a record, and no validation error is emitted.  (`main` checks
only `review.strip()`; the rating range is constrained by the slider
widget, not validated.) -/
theorem rating_range_not_validated :
    ((submitFeedback tSample 0 "Great service" (some "r") (some "s") (some "a") true).1.filter
      isValidationEvent = []) ∧
    (submitFeedback tSample 0 "Great service" (some "r") (some "s") (some "a")
      true).1.filter isSaveEvent ≠ [] ∧
    (submitFeedback tSample 0 "Great service" (some "r") (some "s") (some "a")
      true).2.isSome = true := by
  refine ⟨rfl, ?_, rfl⟩
  decide

/-- Claim C2 (amended): an empty (whitespace-only) review is rejected
with a validation error before any provider call or store write and no
record is persisted; a rating outside [1,5] is not checked by the
handler (it is excluded by the slider widget), so the rejection
guarantee holds only for the blank-review condition. -/
theorem blank_review_rejected_before_io (t : DateTime) (rating : Int) (review : String)
    (oResp oSum oAct : Option String) (storeUp : Bool) (h : pyStrip review = "") :
    submitFeedback t rating review oResp oSum oAct storeUp
      = ([Event.validationError "Please write a review before submitting."], none) := by
  unfold submitFeedback
  rw [if_pos h]

/-- Witness for `blank_review_rejected_before_io` at a whitespace-only
review. -/
theorem blank_review_rejected_before_io_witness :
    pyStrip "   " = "" ∧
    submitFeedback tSample 3 "   " (some "r") (some "s") (some "a") true
      = ([Event.validationError "Please write a review before submitting."], none) :=
  ⟨by decide, blank_review_rejected_before_io tSample 3 "   " (some "r") (some "s") (some "a")
    true (by decide)⟩

/-- Claim C4, counterexample: when the storage medium is unreachable
(the dashboard's `feedback_data.json` does not exist), `load_data`
returns the empty list — exactly what it returns for a reachable store
holding zero records — and the dashboard renders the same no-data view,
so the outage is not distinguishable from having zero records and no
"unavailable" signal exists. -/
theorem outage_read_equals_empty_read :
    admin_load_data ⟨[], none⟩ = admin_load_data ⟨[], some []⟩ ∧
    dashboardMetrics (admin_load_data ⟨[], none⟩) = Dashboard.noData ∧
    dashboardMetrics (admin_load_data ⟨[], some []⟩) = Dashboard.noData :=
  ⟨rfl, rfl, rfl⟩

/-- Claim C4 (amended): on a storage outage `submitFeedback` fails —
`save_data` has no exception handler, so the storage error propagates
uncaught (no success message, nothing persisted) — but the dashboard
read path does not signal unavailability: a missing data file loads as
the empty list, indistinguishable from zero records. -/
theorem storage_outage_fails_submission (t : DateTime) (rating : Int) (review : String)
    (oResp oSum oAct : Option String) (h : pyStrip review ≠ "") :
    (submitFeedback t rating review oResp oSum oAct false).2 = none ∧
    Event.storageException ∈ (submitFeedback t rating review oResp oSum oAct false).1 ∧
    Event.successMessage ∉ (submitFeedback t rating review oResp oSum oAct false).1 ∧
    (∀ ms : List FeedbackEntry, admin_load_data ⟨ms, none⟩ = []) := by
  rcases oResp with _ | x1 <;> rcases oSum with _ | x2 <;> rcases oAct with _ | x3 <;>
    simp [submitFeedback, callEvents, h, generate_ai_response, generate_summary,
      generate_actions, deriveText, admin_load_data]

/-- Witness for `storage_outage_fails_submission`. -/
theorem storage_outage_fails_submission_witness :
    pyStrip "Great service" ≠ "" ∧
    (submitFeedback tSample 5 "Great service" (some "r") (some "s") (some "a") false).2
      = none :=
  ⟨by decide, (storage_outage_fails_submission tSample 5 "Great service" (some "r") (some "s")
    (some "a") (by decide)).1⟩

/-- Claim C5: the record appended by the submission path never appears
in what the dashboard reads back.  `save_data` writes to the MongoDB
`feedback` collection while `admin.py`'s `load_data` reads the local
file `feedback_data.json`, which the writer never touches — so the
write/read round trip returns a list that does not contain the record
at all (here: appending to a fresh system with an existing empty data
file). -/
theorem saved_record_invisible_to_dashboard :
    (save_data ⟨[], some []⟩ eSample).mongoStore = [eSample] ∧
    admin_load_data (save_data ⟨[], some []⟩ eSample) = [] ∧
    eSample ∉ admin_load_data (save_data ⟨[], some []⟩ eSample) := by
  refine ⟨rfl, rfl, ?_⟩
  intro h
  simp [admin_load_data, save_data] at h

/-- Claim C6, counterexample: over the empty record sequence the
dashboard computes no mean at all — `main` returns early with the
no-submissions notice — so the shown mean is `none`, not `0`. -/
theorem empty_mean_not_computed_as_zero :
    meanRatingShown [] = none ∧ meanRatingShown [] ≠ some 0 ∧
    dashboardMetrics [] = Dashboard.noData := by
  refine ⟨rfl, ?_, rfl⟩
  intro h
  simp [meanRatingShown] at h

/-- Claim C6 (amended): over the empty sequence no mean is computed —
the dashboard shows the zero-data notice instead, so no division by
zero or error can occur — and over a record set with ratings [5,5,1]
the shown mean is exactly 11/3. -/
theorem mean_rating_guarded_and_exact :
    meanRatingShown [] = none ∧ dashboardMetrics [] = Dashboard.noData ∧
    (∀ records : List FeedbackEntry, ratingsOf records = [5, 5, 1] →
      meanRatingShown records = some (11 / 3)) := by
  refine ⟨rfl, rfl, ?_⟩
  intro records h
  have hne : records ≠ [] := by
    intro he
    rw [he] at h
    simp [ratingsOf] at h
  have hlen : records.length = 3 := by
    have := congrArg List.length h
    simpa [ratingsOf] using this
  unfold meanRatingShown
  rw [if_neg hne, meanRating, h]
  norm_num

/-- Witness for `mean_rating_guarded_and_exact` on three concrete
records with ratings 5, 5, 1. -/
theorem mean_rating_guarded_and_exact_witness :
    ratingsOf [eSample, eSample, { eSample with rating := 1 }] = [5, 5, 1] ∧
    meanRatingShown [eSample, eSample, { eSample with rating := 1 }] = some (11 / 3) :=
  ⟨rfl, (mean_rating_guarded_and_exact.2.2) [eSample, eSample, { eSample with rating := 1 }] rfl⟩

theorem providerCall_mem_callEvents (oResp oSum oAct : Option String) (d : DerivationKind) :
    Event.providerCall d ∈ callEvents oResp oSum oAct := by
  cases h1 : (generate_ai_response oResp).2 <;> cases h2 : (generate_summary oSum).2 <;>
    cases h3 : (generate_actions oAct).2 <;> cases d <;> simp [callEvents, h1, h2, h3]

theorem save_not_mem_callEvents (oResp oSum oAct : Option String) (x : FeedbackEntry) :
    Event.save x ∉ callEvents oResp oSum oAct := by
  cases h1 : (generate_ai_response oResp).2 <;> cases h2 : (generate_summary oSum).2 <;>
    cases h3 : (generate_actions oAct).2 <;> simp [callEvents, h1, h2, h3]

theorem filter_save_callEvents (oResp oSum oAct : Option String) :
    (callEvents oResp oSum oAct).filter isSaveEvent = [] := by
  cases h1 : (generate_ai_response oResp).2 <;> cases h2 : (generate_summary oSum).2 <;>
    cases h3 : (generate_actions oAct).2 <;> simp [callEvents, h1, h2, h3, isSaveEvent]

/-- Claim C1: the three derivations are isolated from one another.
Each persisted AI field is a function of its own provider interaction
only (so one derivation failing leaves the other two fields exactly
what they would have been anyway); a failed derivation's field carries
its documented fallback string and the failure surfaces as a
`st.warning`, not an error; and the record is still saved. -/
theorem derivation_failures_isolated (t : DateTime) (rating : Int) (review : String)
    (oResp oSum oAct : Option String) (h : pyStrip review ≠ "") :
    ∃ e : FeedbackEntry,
      (submitFeedback t rating review oResp oSum oAct true).2 = some e ∧
      e.ai_response = (generate_ai_response oResp).1 ∧
      e.ai_summary = (generate_summary oSum).1 ∧
      e.ai_actions = (generate_actions oAct).1 ∧
      (oResp = none → e.ai_response = aiResponseFallback ∧
        Event.warn DerivationKind.response
          ∈ (submitFeedback t rating review oResp oSum oAct true).1) ∧
      (oSum = none → e.ai_summary = aiSummaryFallback ∧
        Event.warn DerivationKind.summary
          ∈ (submitFeedback t rating review oResp oSum oAct true).1) ∧
      (oAct = none → e.ai_actions = aiActionsFallback ∧
        Event.warn DerivationKind.actions
          ∈ (submitFeedback t rating review oResp oSum oAct true).1) ∧
      Event.save e ∈ (submitFeedback t rating review oResp oSum oAct true).1 ∧
      Event.successMessage ∈ (submitFeedback t rating review oResp oSum oAct true).1 := by
  refine ⟨feedbackEntryOf t rating review oResp oSum oAct, ?_, rfl, rfl, rfl, ?_, ?_, ?_, ?_, ?_⟩
  · simp [submitFeedback, h]
  · intro h1
    subst h1
    exact ⟨rfl, by simp [submitFeedback, h, callEvents, generate_ai_response, deriveText]⟩
  · intro h2
    subst h2
    exact ⟨rfl, by simp [submitFeedback, h, callEvents, generate_summary, deriveText]⟩
  · intro h3
    subst h3
    exact ⟨rfl, by simp [submitFeedback, h, callEvents, generate_actions, deriveText]⟩
  · simp [submitFeedback, h]
  · simp [submitFeedback, h]

/-- Witness for `derivation_failures_isolated` with the summary
derivation failing and the other two succeeding. -/
theorem derivation_failures_isolated_witness :
    pyStrip "Great service" ≠ "" ∧
    ∃ e : FeedbackEntry,
      (submitFeedback tSample 5 "Great service" (some "resp") none (some "act") true).2
        = some e ∧
      e.ai_response = (generate_ai_response (some "resp")).1 ∧
      e.ai_summary = (generate_summary none).1 ∧
      e.ai_actions = (generate_actions (some "act")).1 ∧
      (((some "resp" : Option String) = none) → e.ai_response = aiResponseFallback ∧
        Event.warn DerivationKind.response
          ∈ (submitFeedback tSample 5 "Great service" (some "resp") none (some "act") true).1) ∧
      (((none : Option String) = none) → e.ai_summary = aiSummaryFallback ∧
        Event.warn DerivationKind.summary
          ∈ (submitFeedback tSample 5 "Great service" (some "resp") none (some "act") true).1) ∧
      (((some "act" : Option String) = none) → e.ai_actions = aiActionsFallback ∧
        Event.warn DerivationKind.actions
          ∈ (submitFeedback tSample 5 "Great service" (some "resp") none (some "act") true).1) ∧
      Event.save e
        ∈ (submitFeedback tSample 5 "Great service" (some "resp") none (some "act") true).1 ∧
      Event.successMessage
        ∈ (submitFeedback tSample 5 "Great service" (some "resp") none (some "act") true).1 :=
  ⟨by decide,
    derivation_failures_isolated tSample 5 "Great service" (some "resp") none (some "act")
      (by decide)⟩

/-- Claim C3: for a valid submission with the store reachable, the
trace performs exactly one store append — it appears exactly once, at
the end, after all three provider calls — and the persisted record is
the appended one. -/
theorem single_append_after_derivations (t : DateTime) (rating : Int) (review : String)
    (oResp oSum oAct : Option String) (h : pyStrip review ≠ "") :
    ∃ (e : FeedbackEntry) (pre : List Event),
      submitFeedback t rating review oResp oSum oAct true
        = (pre ++ [Event.save e, Event.successMessage], some e) ∧
      (∀ d : DerivationKind, Event.providerCall d ∈ pre) ∧
      (∀ x : FeedbackEntry, Event.save x ∉ pre) ∧
      (submitFeedback t rating review oResp oSum oAct true).1.filter isSaveEvent
        = [Event.save e] := by
  refine ⟨feedbackEntryOf t rating review oResp oSum oAct, callEvents oResp oSum oAct,
    ?_, providerCall_mem_callEvents oResp oSum oAct,
    save_not_mem_callEvents oResp oSum oAct, ?_⟩
  · simp [submitFeedback, h]
  · have hfe : (submitFeedback t rating review oResp oSum oAct true).1
        = callEvents oResp oSum oAct
          ++ [Event.save (feedbackEntryOf t rating review oResp oSum oAct),
            Event.successMessage] := by
      simp [submitFeedback, h]
    rw [hfe, List.filter_append, filter_save_callEvents]
    rfl

/-- Witness for `single_append_after_derivations`. -/
theorem single_append_after_derivations_witness :
    pyStrip "Great service" ≠ "" ∧
    ∃ (e : FeedbackEntry) (pre : List Event),
      submitFeedback tSample 5 "Great service" (some "r") (some "s") (some "a") true
        = (pre ++ [Event.save e, Event.successMessage], some e) ∧
      (∀ d : DerivationKind, Event.providerCall d ∈ pre) ∧
      (∀ x : FeedbackEntry, Event.save x ∉ pre) ∧
      (submitFeedback tSample 5 "Great service" (some "r") (some "s") (some "a")
        true).1.filter isSaveEvent = [Event.save e] :=
  ⟨by decide,
    single_append_after_derivations tSample 5 "Great service" (some "r") (some "s") (some "a")
      (by decide)⟩

/-- Claim C7, counterexample: over a record set whose only rating is 5,
`value_counts().sort_index()` produces the single key 5 — keys 1-4 are
absent entirely rather than present with count zero. -/
theorem histogram_omits_absent_ratings :
    ratingCounts [5] = [(5, 1)] ∧
    (ratingCounts [5]).map Prod.fst = [5] ∧
    ((1 : Int), (0 : Nat)) ∉ ratingCounts [5] ∧
    ((2 : Int), (0 : Nat)) ∉ ratingCounts [5] ∧
    ((3 : Int), (0 : Nat)) ∉ ratingCounts [5] ∧
    ((4 : Int), (0 : Nat)) ∉ ratingCounts [5] := by
  refine ⟨rfl, rfl, ?_, ?_, ?_, ?_⟩ <;> decide

/-- Claim C7 (amended): the rating histogram's keys are exactly the
rating values that occur in the record set (no key for an absent
rating), and each key maps to its positive occurrence count. -/
theorem histogram_keys_exactly_occurring (ratings : List Int) :
    (∀ r : Int, r ∈ (ratingCounts ratings).map Prod.fst ↔ r ∈ ratings) ∧
    (∀ p : Int × Nat, p ∈ ratingCounts ratings → p.2 = ratings.count p.1 ∧ 0 < p.2) := by
  constructor
  · intro r
    unfold ratingCounts
    rw [List.map_map]
    have hcomp : (Prod.fst ∘ fun v => (v, ratings.count v)) = id := rfl
    rw [hcomp, List.map_id, (sortBy_perm _ _).mem_iff, List.mem_dedup]
  · intro p hp
    unfold ratingCounts at hp
    rw [List.mem_map] at hp
    obtain ⟨v, hv, rfl⟩ := hp
    have hvr : v ∈ ratings := by
      rw [(sortBy_perm _ _).mem_iff, List.mem_dedup] at hv
      exact hv
    exact ⟨rfl, List.count_pos_iff.mpr hvr⟩

/-- Witness for `histogram_keys_exactly_occurring` at the pair (5, 2)
over ratings [5, 5, 1]. -/
theorem histogram_keys_exactly_occurring_witness :
    ((5, 2) : Int × Nat) ∈ ratingCounts [5, 5, 1] ∧
    ((5, 2) : Int × Nat).2 = ([5, 5, 1] : List Int).count ((5, 2) : Int × Nat).1 ∧
    0 < ((5, 2) : Int × Nat).2 :=
  ⟨by decide, (histogram_keys_exactly_occurring [5, 5, 1]).2 (5, 2) (by decide)⟩

/-- Claim C8, counterexample: two records tied on the sort key are left
in dataframe order, not reordered by `id` ascending.  `eB.id` precedes
`eA.id` lexicographically, yet with input order `[eA, eB]` the code
returns `[eA, eB]` while the specified id tie-break demands `[eB, eA]`. -/
theorem tie_order_ignores_id :
    lexLe eB.id eA.id = true ∧ eB.id ≠ eA.id ∧
    filterAndSort [eA, eB] [4, 5] SortKey.highestRating = [eA, eB] ∧
    filterAndSortSpec [eA, eB] [4, 5] SortKey.highestRating = [eB, eA] ∧
    ([eA, eB] : List FeedbackEntry) ≠ [eB, eA] := by
  refine ⟨?_, ?_, ?_, ?_, ?_⟩ <;> decide

/-- Claim C8 (amended): `filterAndSort` returns exactly the records
whose rating is in the included set, ordered by the single selected
key (`createdAt` or `rating`, descending/ascending per the sort key);
ties are left in dataframe order — no `id` tie-break is applied.  On
the claim's concrete scenario (ratings [2,5,4,5,1], include {4,5},
highest-rating) the result's ratings are [5,5,4]. -/
theorem filterAndSort_filters_and_sorts (records : List FeedbackEntry) (incl : List Int)
    (k : SortKey) :
    (filterAndSort records incl k).Perm
      (records.filter (fun r => incl.contains r.rating)) ∧
    (filterAndSort records incl k).Pairwise (fun a b => sortLe k a b = true) ∧
    ratingsOf (filterAndSort [eR2, eA, eR4, eB, eR1] [4, 5] SortKey.highestRating)
      = [5, 5, 4] := by
  refine ⟨sortBy_perm _ _, ?_, by decide⟩
  apply sortBy_pairwise
  · intro x y z hxy hyz
    cases k <;> simp only [sortLe, decide_eq_true_eq] at hxy hyz ⊢ <;> omega
  · intro x y
    cases k <;> simp only [sortLe, decide_eq_true_eq] <;> omega

/-- Claim C9, counterexample: two distinct submissions made at the same
microsecond instant persist records with identical ids (the id is
derived solely from the creation timestamp). -/
theorem same_instant_submissions_share_id :
    ((submitFeedback tSample 5 "Great service" (some "r") (some "s") (some "a")
        true).2.map FeedbackEntry.id)
      = ((submitFeedback tSample 4 "Bad service" (some "x") (some "y") (some "z")
        true).2.map FeedbackEntry.id) ∧
    (submitFeedback tSample 5 "Great service" (some "r") (some "s") (some "a") true).2
      ≠ (submitFeedback tSample 4 "Bad service" (some "x") (some "y") (some "z") true).2 := by
  constructor
  · rfl
  · decide

/-- Claim C9 (amended): every persisted record's id is the 20-character
timestamp-derived string of its creation instant; ids of two
submissions differ exactly when their creation instants differ (at
microsecond resolution — same-instant submissions collide), and ids
are lexicographically monotone in creation time. -/
theorem id_timestamp_injective_and_monotone (t t2 : DateTime) (h : t.Valid)
    (h2 : t2.Valid) :
    (mkId t).length = 20 ∧
    (∀ (rating : Int) (review : String) (o1 o2 o3 : Option String) (e : FeedbackEntry),
      (submitFeedback t rating review o1 o2 o3 true).2 = some e → e.id = mkId t) ∧
    (t.key ≠ t2.key → mkId t ≠ mkId t2) ∧
    (t.key ≤ t2.key → lexLe (mkId t) (mkId t2) = true) := by
  refine ⟨?_, ?_, mkId_inj t t2 h h2, mkId_mono t t2 h h2⟩
  · simp [mkId, padNum_length]
  · intro rating review o1 o2 o3 e he
    unfold submitFeedback at he
    by_cases hb : pyStrip review = ""
    · rw [if_pos hb] at he
      simp at he
    · rw [if_neg hb] at he
      simp at he
      rw [← he]
      rfl

/-- Witness for `id_timestamp_injective_and_monotone` at two instants
one microsecond apart. -/
theorem id_timestamp_injective_and_monotone_witness :
    tSample.Valid ∧ tSample2.Valid ∧ tSample.key ≠ tSample2.key ∧
    mkId tSample ≠ mkId tSample2 ∧ lexLe (mkId tSample) (mkId tSample2) = true :=
  ⟨by decide, by decide, by decide,
    (id_timestamp_injective_and_monotone tSample tSample2 (by decide) (by decide)).2.2.1
      (by decide),
    (id_timestamp_injective_and_monotone tSample tSample2 (by decide) (by decide)).2.2.2
      (by decide)⟩

/-- Claim C10: Groq credential resolution tries the Streamlit secret
store first, falls back to the environment when the secret lookup
raises, and halts before any derivation call when no source yields a
(non-empty) key — a provider call is never attempted without one; the
MongoDB URI follows the same secrets-then-environment resolve-or-halt
pattern. -/
theorem credential_resolution_order (secrets env : Option String) :
    (∀ k : String, secrets = some k → k ≠ "" →
      get_groq_client secrets env = Resolution.client k) ∧
    (∀ k : String, secrets = none → env = some k → k ≠ "" →
      get_groq_client secrets env = Resolution.client k) ∧
    ((secrets = none ∨ secrets = some "") → (env = none ∨ env = some "") →
      get_groq_client secrets env = Resolution.halted ∧
      get_mongo_client secrets env = Resolution.halted) ∧
    (∀ (outcome : Option String) (fallback : String),
      get_groq_client secrets env = Resolution.halted →
      generateWithCreds secrets env outcome fallback = none) ∧
    (∀ key : String, get_groq_client secrets env = Resolution.client key → key ≠ "") ∧
    (∀ k : String, secrets = some k → k ≠ "" →
      get_mongo_client secrets env = Resolution.client k) ∧
    (∀ k : String, secrets = none → env = some k → k ≠ "" →
      get_mongo_client secrets env = Resolution.client k) := by
  refine ⟨?_, ?_, ?_, ?_, ?_, ?_, ?_⟩
  · intro k hs hk
    subst hs
    simp [get_groq_client, hk]
  · intro k hs he hk
    subst hs
    subst he
    simp [get_groq_client, hk]
  · intro h1 h2
    rcases h1 with h1 | h1 <;> rcases h2 with h2 | h2 <;> subst h1 <;> subst h2 <;>
      exact ⟨rfl, rfl⟩
  · intro outcome fallback hh
    unfold generateWithCreds
    rw [hh]
  · intro key hc
    rcases secrets with _ | v
    · rcases env with _ | w
      · simp [get_groq_client] at hc
      · by_cases hw : w = ""
        · simp [get_groq_client, hw] at hc
        · simp [get_groq_client, hw] at hc
          rw [← hc]
          exact hw
    · by_cases hv : v = ""
      · simp [get_groq_client, hv] at hc
      · simp [get_groq_client, hv] at hc
        rw [← hc]
        exact hv
  · intro k hs hk
    subst hs
    simp [get_mongo_client, hk]
  · intro k hs he hk
    subst hs
    subst he
    simp [get_mongo_client, hk]

/-- Witness for `credential_resolution_order` covering the
secrets-first, environment-fallback, and halt branches. -/
theorem credential_resolution_order_witness :
    get_groq_client (some "SECRETKEY") (some "ENVKEY") = Resolution.client "SECRETKEY" ∧
    get_groq_client none (some "ENVKEY") = Resolution.client "ENVKEY" ∧
    get_groq_client none none = Resolution.halted ∧
    get_mongo_client none none = Resolution.halted ∧
    generateWithCreds none none (some "text") aiSummaryFallback = none :=
  ⟨(credential_resolution_order (some "SECRETKEY") (some "ENVKEY")).1 "SECRETKEY" rfl
      (by decide),
    (credential_resolution_order none (some "ENVKEY")).2.1 "ENVKEY" rfl rfl (by decide),
    ((credential_resolution_order none none).2.2.1 (Or.inl rfl) (Or.inl rfl)).1,
    ((credential_resolution_order none none).2.2.1 (Or.inl rfl) (Or.inl rfl)).2,
    (credential_resolution_order none none).2.2.2.1 (some "text") aiSummaryFallback
      ((credential_resolution_order none none).2.2.1 (Or.inl rfl) (Or.inl rfl)).1⟩
